import Mathlib

/-!
Shallow embedding of the goboscript project builder
(src/goboscript/project.py).

The file system and the external parser are modelled as inputs: a
discovered source file is a pair of its path (as glob returns it) and the
abstract syntax tree that the external parse function would produce from
its text.  The gobomatic Sprite and Project values are modelled as plain
structures, and the exporter as a function wrapping the project into an
artifact.  Python exceptions are modelled with Except: an exception raised
inside build_project's loop aborts it, and reading the never-assigned
local variable stage on the final line, when no stage-named file was seen,
is the error unboundStage.
-/

/-- Modelled from the spec: the AST produced by the external parser
(parser.parse is not under src), opaque beyond its traversal contract; it
is summarised by the declarations the Declaration Collector registers
(costumes, variables, lists, function signatures, in document order) and
the identifiers referenced by the executable constructs the Block
Generator lowers, in document order. -/
structure AST where
  costumeDecls : List String
  varDecls : List String
  listDecls : List String
  funcDecls : List String
  refs : List String
deriving Repr, DecidableEq

/-- Python exceptions that can escape a build. -/
inductive CompileError where
  | duplicateDeclaration (name : String)
  | unresolvedReference (name : String)
  | unboundStage
deriving Repr, DecidableEq

deriving instance DecidableEq for Except

/-- A gobomatic Sprite: name, costume sequence, variables (field vars,
since the source's attribute name variables is a reserved word here),
lists and the generated block sequence. -/
structure Sprite where
  name : String
  costumes : List String
  vars : List String
  lists : List String
  blocks : List String
deriving Repr, DecidableEq

/-- A gobomatic Project: the ordered unit list handed to the exporter. -/
structure Project where
  units : List Sprite
deriving Repr, DecidableEq

/-- Modelled from the spec: the external Exporter serialises the whole
Project into the distributable artifact. -/
structure Artifact where
  project : Project
deriving Repr, DecidableEq

/-- Modelled from the spec: Project.export hands the whole project to the
external exporter. -/
def exportProject (p : Project) : Artifact :=
  ⟨p⟩

/-- The characters after the last slash: seg accumulates the current
path component in reverse and is reset at every slash. -/
def lastComponent : List Char → List Char → List Char
  | seg, [] => seg.reverse
  | seg, c :: cs => if c = '/' then lastComponent [] cs else lastComponent (c :: seg) cs

/-- Python os.path.basename: the component after the last slash. -/
def basename (p : String) : String :=
  ⟨lastComponent [] p.data⟩

/-- Python slicing with negative stop index minus three: the string
without its last three characters (empty when shorter than three). -/
def dropLast3 (s : String) : String :=
  ⟨s.data.dropLast.dropLast.dropLast⟩

/-- Python name-or-default on an optional string: None and the empty
string are falsy and select the default. -/
def pyNameOr (name : Option String) (d : String) : String :=
  match name with
  | none => d
  | some s => if s = "" then d else s

/-- The value gm.Sprite(name or basename(file)[:-3], [""]) built on line 9
of project.py, before either pass runs. -/
def initialSprite (file : String) (name : Option String) : Sprite :=
  { name := pyNameOr name (dropLast3 (basename file))
    costumes := [""]
    vars := []
    lists := []
    blocks := [] }

/-- The first name declared twice in a declaration list, if any. -/
def firstDuplicate : List String → Option String
  | [] => none
  | x :: xs => if x ∈ xs then some x else firstDuplicate xs

/-- The state parser.FirstPass leaves behind: the annotated sprite plus
the frozen tables vars, lsts and funcs that SecondPass receives. -/
structure FirstPassResult where
  sprite : Sprite
  vars : List String
  lsts : List String
  funcs : List String
deriving Repr, DecidableEq

/-- Modelled from the spec: parser.FirstPass (the Declaration Collector,
not under src) visits the AST once in document order, registers every
declaration into the unit's symbol table, records costumes in insertion
order directly on the sprite, materialises its variables and lists, and
raises DuplicateDeclarationError when a name is declared twice in one
unit. -/
def firstPass (sprite : Sprite) (tree : AST) : Except CompileError FirstPassResult :=
  match firstDuplicate (tree.costumeDecls ++ tree.varDecls ++ tree.listDecls ++ tree.funcDecls) with
  | some n => .error (.duplicateDeclaration n)
  | none =>
    .ok { sprite := { sprite with
            costumes := sprite.costumes ++ tree.costumeDecls
            vars := tree.varDecls
            lists := tree.listDecls }
          vars := tree.varDecls
          lsts := tree.listDecls
          funcs := tree.funcDecls }

/-- Modelled from the spec: parser.SecondPass.transform (the Block
Generator, not under src) lowers the executable constructs
deterministically, resolving each referenced identifier against exactly
the tables the SecondPass constructor received; an identifier found in
none of them raises UnresolvedReferenceError naming it.  One block is
emitted per resolved reference, in document order. -/
def secondPassTransform (vars lsts funcs refs : List String) : Except CompileError (List String) :=
  match refs with
  | [] => .ok []
  | r :: rest =>
    if r ∈ vars ∨ r ∈ lsts ∨ r ∈ funcs then
      match secondPassTransform vars lsts funcs rest with
      | .error e => .error e
      | .ok bs => .ok (r :: bs)
    else
      .error (.unresolvedReference r)

/-- project.py sprite_from_file: build one sprite from a discovered file.
The sprite starts as initialSprite; FirstPass annotates it and yields the
tables; SecondPass is constructed with the sprite and the unit's own
vars, lsts and funcs — no other symbol table is passed to it — and its
blocks are appended to the sprite. -/
def sprite_from_file (tree : AST) (file : String) (name : Option String) :
    Except CompileError Sprite :=
  match firstPass (initialSprite file name) tree with
  | .error e => .error e
  | .ok fp =>
    match secondPassTransform fp.vars fp.lsts fp.funcs tree.refs with
    | .error e => .error e
    | .ok blocks => .ok { fp.sprite with blocks := fp.sprite.blocks ++ blocks }

/-- The test basename(sprite) == "stage.gs" on line 32 of project.py. -/
def isStage (f : String × AST) : Bool :=
  basename f.1 == "stage.gs"

/-- One loop iteration's compilation: a stage-named file is compiled with
the explicit name "Stage", every other file with no explicit name. -/
def compileEntry (f : String × AST) : Except CompileError Sprite :=
  if isStage f then sprite_from_file f.2 f.1 (some "Stage")
  else sprite_from_file f.2 f.1 none

/-- Whether compileEntry succeeds on a discovered file. -/
def compiles (f : String × AST) : Bool :=
  match compileEntry f with
  | .ok _ => true
  | .error _ => false

/-- The loop of build_project over the glob result: stage is the
maybe-assigned local variable, sprites the list appended to in
enumeration order; a raised exception aborts the loop. -/
def buildLoop :
    List (String × AST) → Option Sprite → List Sprite →
    Except CompileError (Option Sprite × List Sprite)
  | [], stage, sprites => .ok (stage, sprites)
  | f :: rest, stage, sprites =>
    match compileEntry f with
    | .error e => .error e
    | .ok s =>
      if isStage f then buildLoop rest (some s) sprites
      else buildLoop rest stage (sprites ++ [s])

/-- project.py build_project: the folder's glob result (in whatever
enumeration order the file system yields, each path paired with its
parsed tree) is folded by the loop; then
gm.Project([stage] + sprites).export(out) runs, which reads the local
variable stage — unbound when no stage-named file was seen — and only on
success reaches the exporter. -/
def build_project (files : List (String × AST)) : Except CompileError Artifact :=
  match buildLoop files none [] with
  | .error e => .error e
  | .ok (none, _) => .error .unboundStage
  | .ok (some st, sprites) => .ok (exportProject ⟨st :: sprites⟩)

/-- The sprite the loop's local variable stage holds after the whole
enumeration, starting from st0: the last successfully compiled
stage-named file wins. -/
def lastStage : List (String × AST) → Option Sprite → Option Sprite
  | [], st0 => st0
  | f :: rest, st0 =>
    if isStage f then lastStage rest (sprite_from_file f.2 f.1 (some "Stage")).toOption
    else lastStage rest st0

/-- The ordinary (non-stage) sprites in enumeration order, skipping
failed compilations. -/
def ordinarySprites : List (String × AST) → List Sprite
  | [] => []
  | f :: rest =>
    if isStage f then ordinarySprites rest
    else
      match sprite_from_file f.2 f.1 none with
      | .ok s => s :: ordinarySprites rest
      | .error _ => ordinarySprites rest

/-- The stage-named entries of the enumeration, in order. -/
def stageEntries (files : List (String × AST)) : List (String × AST) :=
  files.filter isStage

/-- The non-stage entries of the enumeration, in order. -/
def ordinaryFiles (files : List (String × AST)) : List (String × AST) :=
  files.filter (fun f => !isStage f)

/-- The filename stem basename(file)[:-3] an ordinary unit is named
from. -/
def stemOf (f : String × AST) : String :=
  dropLast3 (basename f.1)

/-- A source unit with no declarations and no references. -/
def emptyAst : AST :=
  ⟨[], [], [], [], []⟩

/-- A stage source declaring the global list score. -/
def scoreStageAst : AST :=
  ⟨[], [], ["score"], [], []⟩

/-- An ordinary source referencing score without declaring it. -/
def scoreUserAst : AST :=
  ⟨[], [], [], [], ["score"]⟩

/-- A source declaring one variable and nothing else. -/
def varAst (v : String) : AST :=
  ⟨[], [v], [], [], []⟩

/-- A source referencing one undeclared identifier. -/
def badAst (r : String) : AST :=
  ⟨[], [], [], [], [r]⟩

/-- A source declaring a costume and a variable and referencing that
variable. -/
def selfAst : AST :=
  ⟨["c1"], ["x"], [], [], ["x"]⟩

/-- The sprite compiled from a stage-named file holding emptyAst. -/
def stageOnlySprite : Sprite :=
  ⟨"Stage", [""], [], [], []⟩

/-- The sprite compiled from file p/a.gs holding selfAst. -/
def selfSprite : Sprite :=
  ⟨"a", ["", "c1"], ["x"], [], ["x"]⟩

/-- The sprite compiled from an ordinary file holding varAst v, under
name nm. -/
def varSprite (nm v : String) : Sprite :=
  ⟨nm, [""], [v], [], []⟩

theorem firstPass_ok_spec {spr : Sprite} {tree : AST} {fp : FirstPassResult}
    (h : firstPass spr tree = .ok fp) :
    fp.sprite.name = spr.name ∧
      fp.sprite.costumes = spr.costumes ++ tree.costumeDecls ∧
      fp.sprite.blocks = spr.blocks ∧
      fp.vars = tree.varDecls ∧ fp.lsts = tree.listDecls ∧ fp.funcs = tree.funcDecls := by
  unfold firstPass at h
  split at h
  · cases h
  · cases h
    exact ⟨rfl, rfl, rfl, rfl, rfl, rfl⟩

theorem secondPassTransform_ok_mem {vars lsts funcs refs bs : List String}
    (h : secondPassTransform vars lsts funcs refs = .ok bs) :
    ∀ r ∈ refs, r ∈ vars ∨ r ∈ lsts ∨ r ∈ funcs := by
  induction refs generalizing bs with
  | nil => intro r hr; cases hr
  | cons a rest ih =>
    intro r hr
    unfold secondPassTransform at h
    split at h
    · rename_i hmem
      rw [List.mem_cons] at hr
      rcases hr with hr | hr
      · exact hr ▸ hmem
      · split at h
        · cases h
        · rename_i bs2 hb
          exact ih hb r hr
    · cases h

theorem sprite_from_file_ok_spec {tree : AST} {file : String} {name : Option String}
    {s : Sprite} (h : sprite_from_file tree file name = .ok s) :
    s.name = pyNameOr name (dropLast3 (basename file)) ∧
      s.costumes = "" :: tree.costumeDecls ∧
      ∀ r ∈ tree.refs, r ∈ tree.varDecls ∨ r ∈ tree.listDecls ∨ r ∈ tree.funcDecls := by
  unfold sprite_from_file at h
  split at h
  · cases h
  · rename_i fp hfp
    obtain ⟨hn, hc, _, hv, hl, hf⟩ := firstPass_ok_spec hfp
    split at h
    · cases h
    · rename_i bs hsp
      cases h
      refine ⟨hn, ?_, ?_⟩
      · rw [hc]; rfl
      · rw [hv, hl, hf] at hsp
        exact secondPassTransform_ok_mem hsp

theorem compiles_eq_true {f : String × AST} (h : compiles f = true) :
    ∃ s, compileEntry f = .ok s := by
  unfold compiles at h
  cases hc : compileEntry f with
  | error e => rw [hc] at h; cases h
  | ok s => exact ⟨s, rfl⟩

theorem compiles_of_ok {f : String × AST} {s : Sprite}
    (h : compileEntry f = .ok s) : compiles f = true := by
  unfold compiles
  rw [h]

theorem ordinarySprites_cons_stage {f : String × AST} {rest : List (String × AST)}
    (hst : isStage f = true) :
    ordinarySprites (f :: rest) = ordinarySprites rest := by
  simp [ordinarySprites, hst]

theorem ordinarySprites_cons_ok {f : String × AST} {rest : List (String × AST)}
    {s : Sprite} (hst : isStage f = false)
    (hsf : sprite_from_file f.2 f.1 none = .ok s) :
    ordinarySprites (f :: rest) = s :: ordinarySprites rest := by
  simp [ordinarySprites, hst, hsf]

theorem lastStage_cons_stage {f : String × AST} {rest : List (String × AST)}
    {st0 : Option Sprite} (hst : isStage f = true) :
    lastStage (f :: rest) st0
      = lastStage rest (sprite_from_file f.2 f.1 (some "Stage")).toOption := by
  simp [lastStage, hst]

theorem lastStage_cons_ord {f : String × AST} {rest : List (String × AST)}
    {st0 : Option Sprite} (hst : isStage f = false) :
    lastStage (f :: rest) st0 = lastStage rest st0 := by
  simp [lastStage, hst]

theorem buildLoop_ok {files : List (String × AST)} :
    ∀ {st0 : Option Sprite} {acc : List Sprite} {st : Option Sprite} {sps : List Sprite},
      buildLoop files st0 acc = .ok (st, sps) →
      sps = acc ++ ordinarySprites files ∧ st = lastStage files st0 ∧
        ∀ f ∈ files, compiles f = true := by
  induction files with
  | nil =>
    intro st0 acc st sps h
    unfold buildLoop at h
    rw [Except.ok.injEq, Prod.mk.injEq] at h
    obtain ⟨h1, h2⟩ := h
    subst h1; subst h2
    refine ⟨by simp [ordinarySprites], by simp [lastStage], ?_⟩
    intro f hf; cases hf
  | cons f rest ih =>
    intro st0 acc st sps h
    unfold buildLoop at h
    split at h
    · cases h
    · rename_i s1 hc
      split at h
      · rename_i hst
        obtain ⟨h1, h2, h3⟩ := ih h
        have hsf : sprite_from_file f.2 f.1 (some "Stage") = .ok s1 := by
          unfold compileEntry at hc; rw [if_pos hst] at hc; exact hc
        refine ⟨?_, ?_, ?_⟩
        · rw [h1, ordinarySprites_cons_stage hst]
        · rw [h2, lastStage_cons_stage hst, hsf]; rfl
        · intro g hg
          rw [List.mem_cons] at hg
          rcases hg with hg | hg
          · exact hg ▸ compiles_of_ok hc
          · exact h3 g hg
      · rename_i hst
        rw [Bool.not_eq_true] at hst
        obtain ⟨h1, h2, h3⟩ := ih h
        have hsf : sprite_from_file f.2 f.1 none = .ok s1 := by
          unfold compileEntry at hc
          rw [if_neg (by simp [hst])] at hc
          exact hc
        refine ⟨?_, ?_, ?_⟩
        · rw [h1, ordinarySprites_cons_ok hst hsf]
          simp
        · rw [h2, lastStage_cons_ord hst]
        · intro g hg
          rw [List.mem_cons] at hg
          rcases hg with hg | hg
          · exact hg ▸ compiles_of_ok hc
          · exact h3 g hg

theorem buildLoop_cons_ok_stage {f : String × AST} {rest : List (String × AST)}
    {st0 : Option Sprite} {acc : List Sprite} {s : Sprite}
    (hst : isStage f = true) (hc : compileEntry f = .ok s) :
    buildLoop (f :: rest) st0 acc = buildLoop rest (some s) acc := by
  simp [buildLoop, hc, hst]

theorem buildLoop_cons_ok_ord {f : String × AST} {rest : List (String × AST)}
    {st0 : Option Sprite} {acc : List Sprite} {s : Sprite}
    (hst : isStage f = false) (hc : compileEntry f = .ok s) :
    buildLoop (f :: rest) st0 acc = buildLoop rest st0 (acc ++ [s]) := by
  simp [buildLoop, hc, hst]

theorem buildLoop_completes {files : List (String × AST)} :
    ∀ {st0 : Option Sprite} {acc : List Sprite},
      (∀ f ∈ files, compiles f = true) →
      buildLoop files st0 acc = .ok (lastStage files st0, acc ++ ordinarySprites files) := by
  induction files with
  | nil =>
    intro st0 acc _
    simp [buildLoop, lastStage, ordinarySprites]
  | cons f rest ih =>
    intro st0 acc hall
    have hf : compiles f = true := hall f (List.mem_cons_self f rest)
    obtain ⟨s1, hc⟩ := compiles_eq_true hf
    have hrest : ∀ g ∈ rest, compiles g = true := by
      intro g hg
      exact hall g (List.mem_cons_of_mem f hg)
    cases hst : isStage f with
    | true =>
      have hsf : sprite_from_file f.2 f.1 (some "Stage") = .ok s1 := by
        unfold compileEntry at hc; rw [if_pos hst] at hc; exact hc
      rw [buildLoop_cons_ok_stage hst hc, ih hrest, ordinarySprites_cons_stage hst,
        lastStage_cons_stage hst, hsf]
      rfl
    | false =>
      have hsf : sprite_from_file f.2 f.1 none = .ok s1 := by
        unfold compileEntry at hc
        rw [if_neg (by simp [hst])] at hc
        exact hc
      rw [buildLoop_cons_ok_ord hst hc, ih hrest, ordinarySprites_cons_ok hst hsf,
        lastStage_cons_ord hst]
      simp

theorem build_project_ok {files : List (String × AST)} {a : Artifact}
    (h : build_project files = .ok a) :
    ∃ st, lastStage files none = some st ∧
      a = exportProject ⟨st :: ordinarySprites files⟩ ∧
      ∀ f ∈ files, compiles f = true := by
  unfold build_project at h
  split at h
  · cases h
  · cases h
  · rename_i st sprites hb
    obtain ⟨h1, h2, h3⟩ := buildLoop_ok hb
    refine ⟨st, h2.symm, ?_, h3⟩
    cases h
    rw [h1]
    simp

theorem build_project_completes {files : List (String × AST)} {st : Sprite}
    (hall : ∀ f ∈ files, compiles f = true)
    (hst : lastStage files none = some st) :
    build_project files = .ok (exportProject ⟨st :: ordinarySprites files⟩) := by
  unfold build_project
  rw [buildLoop_completes hall, hst]
  rfl

theorem buildLoop_first_error {f : String × AST} {rest : List (String × AST)}
    {st0 : Option Sprite} {acc : List Sprite} {e : CompileError}
    (h : compileEntry f = .error e) :
    buildLoop (f :: rest) st0 acc = .error e := by
  simp [buildLoop, h]

theorem lastStage_of_no_stage {files : List (String × AST)}
    (h : ∀ f ∈ files, isStage f = false) :
    ∀ st0, lastStage files st0 = st0 := by
  induction files with
  | nil => intro st0; simp [lastStage]
  | cons f rest ih =>
    intro st0
    have hf : isStage f = false := h f (List.mem_cons_self f rest)
    rw [lastStage_cons_ord hf]
    exact ih (fun g hg => h g (List.mem_cons_of_mem f hg)) st0

theorem lastStage_eq_stageEntries (files : List (String × AST)) :
    ∀ st0, lastStage files st0 = lastStage (stageEntries files) st0 := by
  induction files with
  | nil => intro st0; rfl
  | cons f rest ih =>
    intro st0
    cases hst : isStage f with
    | true =>
      rw [lastStage_cons_stage hst]
      have he : stageEntries (f :: rest) = f :: stageEntries rest := by
        simp [stageEntries, List.filter_cons, hst]
      rw [he, lastStage_cons_stage hst]
      exact ih _
    | false =>
      rw [lastStage_cons_ord hst]
      have he : stageEntries (f :: rest) = stageEntries rest := by
        simp [stageEntries, List.filter_cons, hst]
      rw [he]
      exact ih st0

theorem lastStage_isSome {files : List (String × AST)}
    (hall : ∀ f ∈ files, compiles f = true) :
    ∀ st0 : Option Sprite,
      ((∃ f ∈ files, isStage f = true) ∨ st0.isSome = true) →
      (lastStage files st0).isSome = true := by
  induction files with
  | nil =>
    intro st0 hcase
    rcases hcase with ⟨f, hf, _⟩ | hs
    · cases hf
    · simpa [lastStage] using hs
  | cons f rest ih =>
    intro st0 hcase
    have hrest : ∀ g ∈ rest, compiles g = true := by
      intro g hg
      exact hall g (List.mem_cons_of_mem f hg)
    cases hst : isStage f with
    | true =>
      rw [lastStage_cons_stage hst]
      obtain ⟨s1, hc⟩ := compiles_eq_true (hall f (List.mem_cons_self f rest))
      have hsf : sprite_from_file f.2 f.1 (some "Stage") = .ok s1 := by
        unfold compileEntry at hc; rw [if_pos hst] at hc; exact hc
      refine ih hrest _ (Or.inr ?_)
      rw [hsf]
      rfl
    | false =>
      rw [lastStage_cons_ord hst]
      refine ih hrest _ ?_
      rcases hcase with ⟨g, hg, hgs⟩ | hs
      · rw [List.mem_cons] at hg
        rcases hg with hg | hg
        · rw [hg] at hgs; rw [hgs] at hst; cases hst
        · exact Or.inl ⟨g, hg, hgs⟩
      · exact Or.inr hs

theorem lastStage_name {files : List (String × AST)} :
    ∀ {st0 : Option Sprite} {st : Sprite},
      (∀ s, st0 = some s → s.name = "Stage") →
      lastStage files st0 = some st → st.name = "Stage" := by
  induction files with
  | nil =>
    intro st0 st h0 h
    exact h0 st (by simpa [lastStage] using h)
  | cons f rest ih =>
    intro st0 st h0 h
    cases hst : isStage f with
    | true =>
      rw [lastStage_cons_stage hst] at h
      refine ih ?_ h
      intro s hs
      cases hsf : sprite_from_file f.2 f.1 (some "Stage") with
      | error e => rw [hsf] at hs; cases hs
      | ok s2 =>
        rw [hsf] at hs
        cases hs
        have := (sprite_from_file_ok_spec hsf).1
        rw [this]
        rfl
    | false =>
      rw [lastStage_cons_ord hst] at h
      exact ih h0 h

theorem ordinarySprites_names {files : List (String × AST)}
    (hall : ∀ f ∈ files, compiles f = true) :
    (ordinarySprites files).map Sprite.name = (ordinaryFiles files).map stemOf := by
  induction files with
  | nil => rfl
  | cons f rest ih =>
    have hrest : ∀ g ∈ rest, compiles g = true := by
      intro g hg
      exact hall g (List.mem_cons_of_mem f hg)
    cases hst : isStage f with
    | true =>
      have he : ordinaryFiles (f :: rest) = ordinaryFiles rest := by
        simp [ordinaryFiles, List.filter_cons, hst]
      rw [ordinarySprites_cons_stage hst, he]
      exact ih hrest
    | false =>
      obtain ⟨s1, hc⟩ := compiles_eq_true (hall f (List.mem_cons_self f rest))
      have hsf : sprite_from_file f.2 f.1 none = .ok s1 := by
        unfold compileEntry at hc
        rw [if_neg (by simp [hst])] at hc
        exact hc
      have he : ordinaryFiles (f :: rest) = f :: ordinaryFiles rest := by
        simp [ordinaryFiles, List.filter_cons, hst]
      rw [ordinarySprites_cons_ok hst hsf, he]
      simp only [List.map_cons]
      rw [ih hrest]
      have hn := (sprite_from_file_ok_spec hsf).1
      rw [hn]
      rfl

theorem ordinarySprites_eq_filterMap (files : List (String × AST)) :
    ordinarySprites files
      = (ordinaryFiles files).filterMap
          (fun f => (sprite_from_file f.2 f.1 none).toOption) := by
  induction files with
  | nil => rfl
  | cons f rest ih =>
    cases hst : isStage f with
    | true =>
      have he : ordinaryFiles (f :: rest) = ordinaryFiles rest := by
        simp [ordinaryFiles, List.filter_cons, hst]
      rw [ordinarySprites_cons_stage hst, he, ih]
    | false =>
      have he : ordinaryFiles (f :: rest) = f :: ordinaryFiles rest := by
        simp [ordinaryFiles, List.filter_cons, hst]
      cases hsf : sprite_from_file f.2 f.1 none with
      | error e =>
        have hskip : ordinarySprites (f :: rest) = ordinarySprites rest := by
          simp [ordinarySprites, hst, hsf]
        rw [hskip, he, ih]
        simp [List.filterMap_cons, hsf, Except.toOption]
      | ok s1 =>
        rw [ordinarySprites_cons_ok hst hsf, he, ih]
        simp [List.filterMap_cons, hsf, Except.toOption]

/-- Claim C1 counterexample: Scenario A fails on the code.  The Stage
declares the list score and an ordinary unit references score; because
SecondPass receives only the ordinary unit's own tables, the build
errors with UnresolvedReferenceError on score instead of succeeding. -/
theorem c1_counterexample :
    build_project [("proj/stage.gs", scoreStageAst), ("proj/player.gs", scoreUserAst)]
      = .error (CompileError.unresolvedReference "score") := by
  decide

/-- Claim C1 (amended): Pass 2 is constructed with only the unit's own
symbol tables (vars, lsts, funcs); the Stage's frozen table is never
passed, so a build succeeds only when every identifier referenced in a
unit is declared inside that same unit. -/
theorem c1_local_resolution_only (files : List (String × AST)) (a : Artifact)
    (h : build_project files = .ok a) :
    ∀ f ∈ files, ∀ r ∈ (f.2).refs,
      r ∈ (f.2).varDecls ∨ r ∈ (f.2).listDecls ∨ r ∈ (f.2).funcDecls := by
  obtain ⟨st, _, _, hall⟩ := build_project_ok h
  intro f hf r hr
  obtain ⟨s, hc⟩ := compiles_eq_true (hall f hf)
  unfold compileEntry at hc
  cases hst : isStage f with
  | true =>
    rw [if_pos hst] at hc
    exact (sprite_from_file_ok_spec hc).2.2 r hr
  | false =>
    rw [if_neg (by simp [hst])] at hc
    exact (sprite_from_file_ok_spec hc).2.2 r hr

/-- Claim C1 witness: a concrete successful two-unit build instantiating
the amended theorem at the ordinary unit. -/
theorem c1_local_resolution_only_witness :
    "x" ∈ selfAst.varDecls ∨ "x" ∈ selfAst.listDecls ∨ "x" ∈ selfAst.funcDecls :=
  c1_local_resolution_only [("p/stage.gs", emptyAst), ("p/a.gs", selfAst)]
    (exportProject ⟨[stageOnlySprite, selfSprite]⟩)
    (by decide) ("p/a.gs", selfAst) (by decide) "x" (by decide)

/-- Claim C2: whenever the enumeration contains a stage-named file and
build_project succeeds, the produced project's first unit is the Stage
unit (named "Stage") and the remaining units are the ordinary units in
discovery order — for every enumeration order. -/
theorem c2_stage_first (files : List (String × AST)) (a : Artifact)
    (hstage : ∃ f ∈ files, isStage f = true)
    (h : build_project files = .ok a) :
    ∃ st, st.name = "Stage" ∧ lastStage files none = some st ∧
      a.project.units = st :: ordinarySprites files := by
  obtain ⟨st, hls, ha, hall⟩ := build_project_ok h
  refine ⟨st, ?_, hls, ?_⟩
  · exact lastStage_name (fun s hs => by cases hs) hls
  · rw [ha]
    rfl

/-- Claim C2 witness: a build whose enumeration lists the stage file
last; its project still begins with the Stage unit. -/
theorem c2_stage_first_witness :
    ∃ st, st.name = "Stage" ∧
      lastStage [("p/a.gs", varAst "x"), ("p/stage.gs", emptyAst)] none = some st ∧
      (exportProject ⟨[stageOnlySprite, varSprite "a" "x"]⟩).project.units
        = st :: ordinarySprites [("p/a.gs", varAst "x"), ("p/stage.gs", emptyAst)] :=
  c2_stage_first [("p/a.gs", varAst "x"), ("p/stage.gs", emptyAst)]
    (exportProject ⟨[stageOnlySprite, varSprite "a" "x"]⟩)
    (by decide) (by decide)

/-- Claim C3 counterexample: with two failing units a and b, the build
fails with only the first unit's diagnostic (alpha), and its outcome is
identical when the second failing unit is replaced by a healthy one — so
sibling units after the first failure are neither compiled nor their
diagnostics accumulated. -/
theorem c3_counterexample :
    build_project
        [("p/a.gs", badAst "alpha"), ("p/b.gs", badAst "beta"), ("p/stage.gs", emptyAst)]
        = .error (CompileError.unresolvedReference "alpha") ∧
      build_project
          [("p/a.gs", badAst "alpha"), ("p/b.gs", badAst "beta"), ("p/stage.gs", emptyAst)]
        = build_project
            [("p/a.gs", badAst "alpha"), ("p/b.gs", varAst "v"), ("p/stage.gs", emptyAst)] := by
  constructor
  · decide
  · decide

/-- Claim C3 (amended): the loop stops at the first failing unit: the
whole build fails with exactly that unit's diagnostic, and the entries
after it in enumeration order never influence the outcome. -/
theorem c3_stops_at_first_failure (f : String × AST)
    (rest₁ rest₂ : List (String × AST)) (e : CompileError)
    (h : compileEntry f = .error e) :
    build_project (f :: rest₁) = .error e ∧
      build_project (f :: rest₁) = build_project (f :: rest₂) := by
  have h1 : ∀ rest : List (String × AST), build_project (f :: rest) = .error e := by
    intro rest
    unfold build_project
    rw [buildLoop_first_error h]
  exact ⟨h1 rest₁, (h1 rest₁).trans (h1 rest₂).symm⟩

/-- Claim C3 witness: one failing unit followed by a healthy stage file;
the build fails with the first unit's diagnostic and equals the build
with the stage file removed. -/
theorem c3_stops_at_first_failure_witness :
    build_project [("p/a.gs", badAst "alpha"), ("p/stage.gs", emptyAst)]
        = .error (CompileError.unresolvedReference "alpha") ∧
      build_project [("p/a.gs", badAst "alpha"), ("p/stage.gs", emptyAst)]
        = build_project [("p/a.gs", badAst "alpha")] :=
  c3_stops_at_first_failure ("p/a.gs", badAst "alpha") [("p/stage.gs", emptyAst)] []
    (CompileError.unresolvedReference "alpha") (by decide)

/-- Claim C4 counterexample: the files Stage.gs and stage.gs yield two
units both named "Stage", and assembly succeeds and exports — no
DuplicateSpriteNameError is raised on the collision. -/
theorem c4_counterexample :
    build_project [("p/Stage.gs", emptyAst), ("p/stage.gs", emptyAst)]
      = .ok (exportProject
          ⟨[⟨"Stage", [""], [], [], []⟩, ⟨"Stage", [""], [], [], []⟩]⟩) := by
  decide

/-- Claim C4 (amended): project assembly performs no name-uniqueness
validation: whenever every discovered unit compiles and a stage-named
file exists, the build succeeds and exports, colliding unit names
notwithstanding. -/
theorem c4_no_uniqueness_validation (files : List (String × AST))
    (hall : ∀ f ∈ files, compiles f = true)
    (hstage : ∃ f ∈ files, isStage f = true) :
    ∃ a, build_project files = .ok a := by
  have hsome := lastStage_isSome hall none (Or.inl hstage)
  rw [Option.isSome_iff_exists] at hsome
  obtain ⟨st, hst⟩ := hsome
  exact ⟨_, build_project_completes hall hst⟩

/-- Claim C4 witness: the amended theorem applied to the colliding
enumeration of the counterexample. -/
theorem c4_no_uniqueness_validation_witness :
    ∃ a, build_project [("p/Stage.gs", emptyAst), ("p/stage.gs", emptyAst)] = .ok a :=
  c4_no_uniqueness_validation [("p/Stage.gs", emptyAst), ("p/stage.gs", emptyAst)]
    (by decide) (by decide)

/-- Claim C5 counterexample: the same folder contents presented in two
different file-system enumeration orders build to different results:
discovery imposes no order of its own, so the ordinary units follow the
enumeration order. -/
theorem c5_counterexample :
    build_project
        [("p/stage.gs", emptyAst), ("p/a.gs", varAst "x"), ("p/b.gs", varAst "y")]
      ≠ build_project
        [("p/stage.gs", emptyAst), ("p/b.gs", varAst "y"), ("p/a.gs", varAst "x")] := by
  decide

/-- Claim C5 (amended): build output is a pure function of the
enumeration order; permuting the enumeration of a folder with exactly one
stage-named file yields the same units up to order (the ordinary units
are permuted along with the enumeration), not an identical sequence. -/
theorem c5_units_permute_with_enumeration (files₁ files₂ : List (String × AST))
    (a₁ a₂ : Artifact) (hperm : files₁.Perm files₂)
    (hone : (stageEntries files₁).length = 1)
    (h₁ : build_project files₁ = .ok a₁) (h₂ : build_project files₂ = .ok a₂) :
    a₁.project.units.Perm a₂.project.units := by
  obtain ⟨st₁, hls₁, ha₁, _⟩ := build_project_ok h₁
  obtain ⟨st₂, hls₂, ha₂, _⟩ := build_project_ok h₂
  have hpf : (stageEntries files₁).Perm (stageEntries files₂) := hperm.filter isStage
  obtain ⟨x, hx⟩ := List.length_eq_one.mp hone
  have hx₂ : stageEntries files₂ = [x] := by
    rw [hx] at hpf
    exact (List.singleton_perm.mp hpf).symm
  have hsame : lastStage files₁ none = lastStage files₂ none := by
    rw [lastStage_eq_stageEntries files₁ none, lastStage_eq_stageEntries files₂ none,
      hx, hx₂]
  have hst : st₁ = st₂ := by
    have h3 := hls₁.symm.trans (hsame.trans hls₂)
    exact Option.some.inj h3
  have hof : (ordinaryFiles files₁).Perm (ordinaryFiles files₂) := hperm.filter _
  have hop : (ordinarySprites files₁).Perm (ordinarySprites files₂) := by
    rw [ordinarySprites_eq_filterMap files₁, ordinarySprites_eq_filterMap files₂]
    exact List.Perm.filterMap _ hof
  rw [ha₁, ha₂]
  show (st₁ :: ordinarySprites files₁).Perm (st₂ :: ordinarySprites files₂)
  rw [hst]
  exact hop.cons st₂

/-- Claim C5 witness: two enumerations of the same three files, with the
two ordinary entries swapped; the built unit lists are permutations of
each other. -/
theorem c5_units_permute_with_enumeration_witness :
    (exportProject ⟨[stageOnlySprite, varSprite "a" "x", varSprite "b" "y"]⟩).project.units.Perm
      (exportProject ⟨[stageOnlySprite, varSprite "b" "y", varSprite "a" "x"]⟩).project.units :=
  c5_units_permute_with_enumeration
    [("p/stage.gs", emptyAst), ("p/a.gs", varAst "x"), ("p/b.gs", varAst "y")]
    [("p/stage.gs", emptyAst), ("p/b.gs", varAst "y"), ("p/a.gs", varAst "x")]
    (exportProject ⟨[stageOnlySprite, varSprite "a" "x", varSprite "b" "y"]⟩)
    (exportProject ⟨[stageOnlySprite, varSprite "b" "y", varSprite "a" "x"]⟩)
    (List.Perm.cons _ (List.Perm.swap ("p/b.gs", varAst "y") ("p/a.gs", varAst "x") []))
    (by decide) (by decide) (by decide)

/-- Claim C6 counterexample: an enumeration holding two stage-named
files builds successfully — no DuplicateStageError exists — and the later
file has silently become the Stage (its variable y is the one on the
stage unit). -/
theorem c6_counterexample :
    build_project [("d1/stage.gs", varAst "x"), ("d2/stage.gs", varAst "y")]
      = .ok (exportProject ⟨[⟨"Stage", [""], ["y"], [], []⟩]⟩) := by
  decide

/-- Claim C6 (amended): build_project raises no DuplicateStageError; on
success the project's first unit is always the sprite compiled from the
last stage-named entry in enumeration order, silently shadowing any
earlier one. -/
theorem c6_last_stage_silently_wins (files : List (String × AST)) (a : Artifact)
    (h : build_project files = .ok a) :
    a.project.units.head? = lastStage files none := by
  obtain ⟨st, hls, ha, _⟩ := build_project_ok h
  rw [ha, hls]
  rfl

/-- Claim C6 witness: the amended theorem at the duplicate-stage
enumeration of the counterexample. -/
theorem c6_last_stage_silently_wins_witness :
    (exportProject ⟨[⟨"Stage", [""], ["y"], [], []⟩]⟩).project.units.head?
      = lastStage [("d1/stage.gs", varAst "x"), ("d2/stage.gs", varAst "y")] none :=
  c6_last_stage_silently_wins
    [("d1/stage.gs", varAst "x"), ("d2/stage.gs", varAst "y")]
    (exportProject ⟨[⟨"Stage", [""], ["y"], [], []⟩]⟩) (by decide)

/-- Claim C7 counterexample: a caller-supplied explicit name that is the
empty string is not used exactly: the Python or-expression treats it as
falsy and the unit is named by the filename stem player instead. -/
theorem c7_counterexample :
    (sprite_from_file emptyAst "p/player.gs" (some "")).map Sprite.name
        = .ok "player" ∧ ("player" : String) ≠ "" := by
  constructor
  · decide
  · decide

/-- Claim C7 (amended): a stage-named file becomes the Stage unit and
every other file becomes an ordinary unit named by its filename stem
(basename without the three-character extension); a caller-supplied
explicit name is used exactly when it is non-empty. -/
theorem c7_unit_naming (files : List (String × AST)) (a : Artifact)
    (tree : AST) (file n : String) (s : Sprite)
    (hn : n ≠ "") (hs : sprite_from_file tree file (some n) = .ok s)
    (h : build_project files = .ok a) :
    s.name = n ∧
      a.project.units.map Sprite.name = "Stage" :: (ordinaryFiles files).map stemOf := by
  constructor
  · have h1 := (sprite_from_file_ok_spec hs).1
    rw [h1]
    simp [pyNameOr, hn]
  · obtain ⟨st, hls, ha, hall⟩ := build_project_ok h
    have hstn : st.name = "Stage" := lastStage_name (fun s2 hs2 => by cases hs2) hls
    rw [ha]
    show (st :: ordinarySprites files).map Sprite.name = _
    rw [List.map_cons, hstn, ordinarySprites_names hall]

/-- Claim C7 witness: a non-empty explicit name Hero is used exactly, and
a concrete two-file build names its units Stage then by stem. -/
theorem c7_unit_naming_witness :
    (⟨"Hero", [""], [], [], []⟩ : Sprite).name = "Hero" ∧
      (exportProject ⟨[stageOnlySprite, varSprite "a" "x"]⟩).project.units.map Sprite.name
        = "Stage"
            :: (ordinaryFiles [("p/a.gs", varAst "x"), ("p/stage.gs", emptyAst)]).map stemOf :=
  c7_unit_naming [("p/a.gs", varAst "x"), ("p/stage.gs", emptyAst)]
    (exportProject ⟨[stageOnlySprite, varSprite "a" "x"]⟩)
    emptyAst "p/hero.gs" "Hero" ⟨"Hero", [""], [], [], []⟩
    (by decide) (by decide) (by decide)

/-- Claim C8: if any discovered unit fails to compile, build_project
produces no artifact: its result is an error, so the exporter is never
reached. -/
theorem c8_no_artifact_on_failure (files : List (String × AST))
    (h : ∃ f ∈ files, compiles f = false) :
    ∃ e, build_project files = .error e := by
  cases hb : build_project files with
  | error e => exact ⟨e, rfl⟩
  | ok a =>
    obtain ⟨st, _, _, hall⟩ := build_project_ok hb
    obtain ⟨f, hf, hcf⟩ := h
    rw [hall f hf] at hcf
    cases hcf

/-- Claim C8 witness: a build holding one failing unit and a healthy
stage yields an error, not an artifact. -/
theorem c8_no_artifact_on_failure_witness :
    ∃ e, build_project [("p/bad.gs", badAst "w"), ("p/stage.gs", emptyAst)] = .error e :=
  c8_no_artifact_on_failure [("p/bad.gs", badAst "w"), ("p/stage.gs", emptyAst)]
    (by decide)

/-- Claim C9: with no stage-named file in the enumeration, build_project
always fails before exporting; when every unit compiles, the failure is
precisely the read of the unbound local variable stage. -/
theorem c9_missing_stage_fails (files : List (String × AST))
    (h : ∀ f ∈ files, isStage f = false) :
    (∃ e, build_project files = .error e) ∧
      ((∀ f ∈ files, compiles f = true) →
        build_project files = .error CompileError.unboundStage) := by
  have h2 : (∀ f ∈ files, compiles f = true) →
      build_project files = .error CompileError.unboundStage := by
    intro hall
    unfold build_project
    rw [buildLoop_completes hall, lastStage_of_no_stage h none]
  constructor
  · cases hb : build_project files with
    | error e => exact ⟨e, rfl⟩
    | ok a =>
      obtain ⟨st, hls, _, _⟩ := build_project_ok hb
      rw [lastStage_of_no_stage h none] at hls
      cases hls
  · exact h2

/-- Claim C9 witness: one healthy ordinary file and no stage file; the
build fails, and with every unit compiling the error is unboundStage. -/
theorem c9_missing_stage_fails_witness :
    (∃ e, build_project [("p/a.gs", varAst "x")] = .error e) ∧
      ((∀ f ∈ [("p/a.gs", varAst "x")], compiles f = true) →
        build_project [("p/a.gs", varAst "x")] = .error CompileError.unboundStage) :=
  c9_missing_stage_fails [("p/a.gs", varAst "x")] (by decide)

/-- Claim C10: every sprite starts, before Pass 1 runs, with the costume
sequence containing exactly the one empty-string costume, and on a
successful compile that entry precedes every costume declared in the
source. -/
theorem c10_initial_empty_costume (file : String) (name : Option String)
    (tree : AST) (s : Sprite) (h : sprite_from_file tree file name = .ok s) :
    (initialSprite file name).costumes = [""] ∧
      s.costumes = "" :: tree.costumeDecls :=
  ⟨rfl, (sprite_from_file_ok_spec h).2.1⟩

/-- Claim C10 witness: the unit of selfAst starts with the empty costume
and keeps it in front of the declared costume c1. -/
theorem c10_initial_empty_costume_witness :
    (initialSprite "p/a.gs" none).costumes = [""] ∧
      selfSprite.costumes = "" :: selfAst.costumeDecls :=
  c10_initial_empty_costume "p/a.gs" none selfAst selfSprite (by decide)
